import Mathlib

/-!
Verification of the Rewst Integration Library (src/rewst-library.js) against
its specification.  The JavaScript source is shallowly embedded: every
definition below is a direct translation of the corresponding function in
the source file; platform pieces that cannot be embedded (the network,
sessionStorage, the DOM, the dynamic `eval` used for condition strings) are
modelled at their boundary exactly as the source consumes them.
-/

namespace Rewst

/-- A JavaScript value as it flows through the library: form values,
`conductor.output` payloads and cache entries.  `undefined` models it
(an absent property or missing form value); `null` models `null`. -/
inductive JsValue where
  | undefined : JsValue
  | null : JsValue
  | bool (b : Bool) : JsValue
  | num (n : Int) : JsValue
  | str (s : String) : JsValue
  | arr (xs : List JsValue) : JsValue
  | obj (fields : List (String × JsValue)) : JsValue
deriving Repr

/-- JavaScript truthiness for the values of `JsValue`: `undefined`, `null`,
`false`, `0` and the empty string are falsy; arrays and objects (even empty
ones) are truthy. -/
def jsTruthy : JsValue → Bool
  | .undefined => false
  | .null => false
  | .bool b => b
  | .num n => n != 0
  | .str s => s != ""
  | .arr _ => true
  | .obj _ => true

/-- `typeof v === 'object'` for our value model (`typeof null` is
`'object'` in JavaScript; arrays are objects). -/
def jsTypeofObject : JsValue → Bool
  | .null => true
  | .arr _ => true
  | .obj _ => true
  | _ => false

/-- `Object.keys(v)` for our value model.  Only ever consulted by the
source after a truthiness check, so the `null`/scalar branches are
unreachable there; `[]` is a safe stand-in. -/
def jsKeys : JsValue → List String
  | .obj fields => fields.map (fun kv => kv.1)
  | .arr xs => (List.range xs.length).map (fun i => toString i)
  | _ => []

/-- The `conductor` object of a workflow execution as returned by the
status query: `{errors, output}`.  `errors` is `Option` because the field
may be absent or `null`. -/
structure Conductor where
  errors : Option (List String)
  output : JsValue
deriving Repr

/-- One `workflowExecution` record from the status query:
`{id, status, conductor, numSuccessfulTasks}` (the `id` field is not read
by the poller and is omitted). -/
structure Execution where
  status : Option String
  conductor : Option Conductor
  numSuccessfulTasks : Option Nat
deriving Repr

/-- One response of the remote endpoint to the status query inside
`waitForWorkflowCompletion`:
the query throws (`graphqlQuery` rejected: transport or GraphQL error),
or succeeds with no resolvable execution (`result.workflowExecution`
absent), or succeeds with an execution record. -/
inductive PollResp where
  | err (msg : String) : PollResp
  | notFound : PollResp
  | found (e : Execution) : PollResp
deriving Repr

/-- The result shape `{conductor: {output, errors, status}}` returned to
callers by `waitForWorkflowCompletion` and persisted in the cache. -/
structure ResultConductor where
  output : JsValue
  errors : List String
  status : Option String
deriving Repr

structure ExecutionResult where
  conductor : ResultConductor
deriving Repr

/-- The errors `waitForWorkflowCompletion` can raise:
`executionNotFound` is `Error('Execution not found after retries: ...')`,
`queryError` is a rejection of the status query itself, and `pollTimeout`
is `Error('Workflow execution timeout after 5 minutes')`. -/
inductive PollError where
  | executionNotFound : PollError
  | queryError (msg : String) : PollError
  | pollTimeout : PollError
deriving Repr, DecidableEq

/-- Outcome of the polling loop.  `outOfFuel` is an artifact of the fuel
parameter used to express the loop as structural recursion; the fuel
passed by `waitForWorkflowCompletion` exceeds the loop's iteration bound
(see `pollFuel`), so it is never produced from the initial state. -/
inductive PollResult where
  | ok (r : ExecutionResult) : PollResult
  | err (e : PollError) : PollResult
  | outOfFuel : PollResult
deriving Repr

/-- Observable loop state of `waitForWorkflowCompletion`: the mutable
counters `attempts` and `emptyOutputRetries`, plus the number of status
queries issued so far and the sequence of `setTimeout` waits (in ms)
performed, recorded in order. -/
structure PollState where
  attempts : Nat
  eoRetries : Nat
  queries : Nat
  waits : List Nat
deriving Repr, DecidableEq

/-- `maxAttempts` in `waitForWorkflowCompletion` (150, five minutes at two
second intervals). -/
def maxAttempts : Nat := 150

/-- `maxEmptyOutputRetries` in `waitForWorkflowCompletion`. -/
def maxEmptyOutputRetries : Nat := 10

/-- `terminalStates` in `waitForWorkflowCompletion`. -/
def terminalStates : List String :=
  ["COMPLETED", "SUCCESS", "succeeded", "FAILED", "failed", "ERROR"]

/-- `String.prototype.toUpperCase`, character by character (ASCII suffices
for the status labels compared here).  Defined by structural recursion on
the character list so that it evaluates under kernel reduction (the
library function `String.toUpper` is well-founded-recursive and does
not). -/
def jsToUpperCase (s : String) : String := String.mk (s.data.map Char.toUpper)

/-- `terminalStates.some(s => execution.status?.toUpperCase?.() ===
s.toUpperCase())`: a `null`/absent status never compares equal. -/
def isTerminalStatus : Option String → Bool
  | none => false
  | some s => terminalStates.any (fun t => jsToUpperCase s == jsToUpperCase t)

/-- `execution.conductor?.output` (optional chaining: an absent conductor
yields `undefined`). -/
def outputVal (e : Execution) : JsValue :=
  match e.conductor with
  | none => .undefined
  | some c => c.output

/-- The empty-output test of the poller:
`!output || (typeof output === 'object' && Object.keys(output).length === 0)`. -/
def outputEmpty (o : JsValue) : Bool :=
  !jsTruthy o || (jsTypeofObject o && (jsKeys o).isEmpty)

/-- `execution.conductor?.errors || []`. -/
def conductorErrors (e : Execution) : List String :=
  match e.conductor with
  | none => []
  | some c =>
    match c.errors with
    | none => []
    | some l => l

/-- The value returned on the terminal branch:
`{conductor: {output: output || {}, errors: execution.conductor?.errors || [],
status: execution.status}}`. -/
def mkResult (e : Execution) : ExecutionResult :=
  { conductor :=
    { output := if jsTruthy (outputVal e) then outputVal e else .obj []
      errors := conductorErrors e
      status := e.status } }

/-- The `while (attempts < maxAttempts)` loop of
`waitForWorkflowCompletion`, one recursive call per iteration.  The `resp`
stream abstracts the remote endpoint: `resp n` is the response to the
(n+1)-th status query for this handle.  Fidelity notes:
- the `throw new Error('Execution not found after retries')` of the source
  sits inside the `try`, so it is routed through the same `catch` as a
  query error: `attempts++`, and the error only propagates once
  `attempts >= maxAttempts`, otherwise the loop waits 1000 ms and retries;
- `attempts = Math.max(0, attempts - 1)` on the empty-output branch is
  natural-number subtraction;
- the progress callback is invoked inside `try {...} catch (e) {}` and can
  affect nothing observed here, so it is not modelled. -/
def pollLoop (resp : Nat → PollResp) : Nat → PollState → PollResult × PollState
  | 0, s => (.outOfFuel, s)
  | fuel + 1, s =>
    if s.attempts < maxAttempts then
      match resp s.queries with
      | .err m =>
        if s.attempts + 1 ≥ maxAttempts then
          (.err (.queryError m),
           { s with attempts := s.attempts + 1, queries := s.queries + 1 })
        else
          pollLoop resp fuel
            { s with attempts := s.attempts + 1, queries := s.queries + 1,
                     waits := s.waits ++ [1000] }
      | .notFound =>
        if s.attempts < 5 then
          pollLoop resp fuel
            { s with attempts := s.attempts + 1, queries := s.queries + 1,
                     waits := s.waits ++ [500] }
        else
          if s.attempts + 1 ≥ maxAttempts then
            (.err .executionNotFound,
             { s with attempts := s.attempts + 1, queries := s.queries + 1 })
          else
            pollLoop resp fuel
              { s with attempts := s.attempts + 1, queries := s.queries + 1,
                       waits := s.waits ++ [1000] }
      | .found e =>
        if isTerminalStatus e.status then
          if outputEmpty (outputVal e) && s.eoRetries < maxEmptyOutputRetries then
            pollLoop resp fuel
              { attempts := s.attempts - 1, eoRetries := s.eoRetries + 1,
                queries := s.queries + 1, waits := s.waits ++ [2500] }
          else
            (.ok (mkResult e), { s with queries := s.queries + 1 })
        else
          pollLoop resp fuel
            { s with attempts := s.attempts + 1, queries := s.queries + 1,
                     waits := s.waits ++ [2000] }
    else
      (.err .pollTimeout, s)

/-- Fuel for the loop.  Every iteration either returns or strictly
decreases `(maxAttempts - attempts) + 2 * (maxEmptyOutputRetries -
eoRetries)`, which starts at 170, so 171 units can never run out from the
initial state. -/
def pollFuel : Nat := 171

/-- `waitForWorkflowCompletion(executionId, onProgress)`, as a function of
the response stream for the given handle.  Starts with
`attempts = 0`, `emptyOutputRetries = 0`. -/
def waitForWorkflowCompletion (resp : Nat → PollResp) : PollResult × PollState :=
  pollLoop resp pollFuel { attempts := 0, eoRetries := 0, queries := 0, waits := [] }

/-- The `config` object of the library; only `skip_cache` feeds the logic
verified here. -/
structure Config where
  skip_cache : Bool
deriving Repr

/-- The `options` argument of `executeWorkflow`/`submitForm`.  `skip_cache`
and `useCache` are `Option Bool` because the source tests them with strict
equality (`=== true` / `=== false`), so absent, `true` and `false` are all
distinguished.  The `onSuccess`/`onError` hooks are opaque functions; only
their presence is observable to the control flow, and their invocations are
recorded as events (see `HookEvent`). -/
structure Options where
  skip_cache : Option Bool
  useCache : Option Bool
  hasOnSuccess : Bool
  hasOnError : Bool
deriving Repr

/-- The cache-use resolution at the top of `executeWorkflow`:
`options.skip_cache === true`, else `options.useCache === false`, else
`config.skip_cache === true`, else enabled. -/
def resolveUseCache (options : Options) (cfg : Config) : Bool :=
  if options.skip_cache = some true then false
  else if options.useCache = some false then false
  else if cfg.skip_cache = true then false
  else true

/-- The session-scoped store (`sessionStorage`).  The source stores
`JSON.stringify(executionResult)` and returns `JSON.parse` of it; since
`ExecutionResult` is built from JSON-safe values, that round trip is
structural identity and the store is modelled as holding the results
directly.  `putFails` models the storage layer rejecting a write
(`setItem` throwing, e.g. `QuotaExceededError`); reads do not throw. -/
structure Session where
  entries : List (String × ExecutionResult)
  putFails : Bool

/-- `sessionStorage.getItem(key)` (then `JSON.parse`). -/
def Session.getItem (sess : Session) (key : String) : Option ExecutionResult :=
  (sess.entries.find? (fun kv => kv.1 = key)).map (fun kv => kv.2)

/-- The store after a successful write of `v` under `key`: any previous
entry for `key` replaced. -/
def cachePut (sess : Session) (key : String) (v : ExecutionResult) : Session :=
  { sess with
    entries := sess.entries.filter (fun kv => kv.1 ≠ key) ++ [(key, v)] }

/-- `sessionStorage.setItem(key, JSON.stringify(value))`; throws when the
storage layer rejects the write. -/
def Session.setItem (sess : Session) (key : String) (v : ExecutionResult) :
    Except String Session :=
  if sess.putFails then .error "QuotaExceededError"
  else .ok (cachePut sess key v)

/-- `sessionStorage.removeItem(key)`. -/
def Session.removeItem (sess : Session) (key : String) : Session :=
  { sess with entries := sess.entries.filter (fun kv => kv.1 ≠ key) }

/-- `String.prototype.startsWith` (used on cache keys), by structural
recursion on the character lists so that it evaluates under kernel
reduction (the library function `String.startsWith` does not). -/
def startsWithChars : List Char → List Char → Bool
  | _, [] => true
  | [], _ :: _ => false
  | a :: as, b :: bs => a = b && startsWithChars as bs

def jsStartsWith (s pfx : String) : Bool := startsWithChars s.toList pfx.toList

/-- The cache key of `executeWorkflow` and `clearWorkflowCache`:
the template literal `workflow_cache_${workflowId}_${JSON.stringify(inputData)}`.
Input payloads are represented throughout by their serialized form
(`inputSer` = the value of `JSON.stringify(inputData)`). -/
def workflowCacheKey (workflowId : String) (inputSer : String) : String :=
  "workflow_cache_" ++ workflowId ++ "_" ++ inputSer

/-- Errors `executeWorkflow` can raise: the launch response lacked an
execution id, a poll error propagated, or the cache write threw. -/
inductive ExecError where
  | launchError (msg : String) : ExecError
  | pollError (e : PollError) : ExecError
  | storageError (msg : String) : ExecError
deriving Repr, DecidableEq

/-- The remote endpooint as seen by one `executeWorkflow` call: the launch
mutation either yields `testResult.executionId` (`some id`) or a response
without one (`none`, which the source turns into a launch error), and
`poll` is the status-query response stream consumed by the poller. -/
structure Remote where
  launch : Option String
  poll : Nat → PollResp

/-- `executeWorkflow(workflowId, inputData, options)`.  Returns the
result-or-error, the session store after the call, and the number of
remote calls made (launch mutation plus status queries).  Fidelity notes:
- the cache write `sessionStorage.setItem(cacheKey, ...)` is NOT wrapped
  in a try/catch in the source, so a storage error propagates out of
  `executeWorkflow` instead of the result being returned;
- on a cache hit the parsed cached value is returned before any network
  call. -/
def executeWorkflow (cfg : Config) (remote : Remote) (sess : Session)
    (workflowId : String) (inputSer : String) (options : Options) :
    Except ExecError ExecutionResult × Session × Nat :=
  let cacheKey := workflowCacheKey workflowId inputSer
  let useCache := resolveUseCache options cfg
  match (if useCache then sess.getItem cacheKey else none) with
  | some cached => (.ok cached, sess, 0)
  | none =>
    match remote.launch with
    | none => (.error (.launchError "Failed to start workflow execution"), sess, 1)
    | some _execId =>
      match waitForWorkflowCompletion remote.poll with
      | (.ok r, st) =>
        if useCache then
          match sess.setItem cacheKey r with
          | .ok sess2 => (.ok r, sess2, 1 + st.queries)
          | .error m => (.error (.storageError m), sess, 1 + st.queries)
        else (.ok r, sess, 1 + st.queries)
      | (.err e, st) => (.error (.pollError e), sess, 1 + st.queries)
      | (.outOfFuel, st) => (.error (.pollError .pollTimeout), sess, 1 + st.queries)

/-- `clearWorkflowCache(workflowId, inputData)`.  A missing or falsy
(empty-string) `workflowId` clears every `workflow_cache_` entry; with an
`inputData` payload it removes the one exact key; otherwise it removes all
entries prefixed by `workflow_cache_${workflowId}_`. -/
def clearWorkflowCache (sess : Session) (workflowId : Option String)
    (inputSer : Option String) : Session :=
  if (workflowId.getD "") = "" then
    { sess with entries :=
      sess.entries.filter (fun kv => !jsStartsWith kv.1 "workflow_cache_") }
  else
    match inputSer with
    | some inp => sess.removeItem (workflowCacheKey (workflowId.getD "") inp)
    | none =>
      { sess with entries :=
        sess.entries.filter (fun kv =>
          !jsStartsWith kv.1 ("workflow_cache_" ++ workflowId.getD "" ++ "_")) }

/-- Whether a `clearWorkflowCache(workflowId, inputSer)` invocation touches
a given store key (removes it when present), branch for branch with
`clearWorkflowCache`. -/
def clearTouches (workflowId : Option String) (inputSer : Option String)
    (key : String) : Bool :=
  if (workflowId.getD "") = "" then jsStartsWith key "workflow_cache_"
  else
    match inputSer with
    | some inp => key = workflowCacheKey (workflowId.getD "") inp
    | none => jsStartsWith key ("workflow_cache_" ++ workflowId.getD "" ++ "_")

/-- One field configuration consumed by the forms code.  `required` and
`hidden` are tested for truthiness in the source and modelled as `Bool`;
`condition_1`, `condition_2`, their actions, `type`, `min_length` and
`max_length` are tested for truthiness or strict string equality, so
absence is `none`. -/
structure FieldConfig where
  field_name : String
  field_displayname : String
  type : Option String
  required : Bool
  min_length : Option Nat
  max_length : Option Nat
  hidden : Bool
  condition_1 : Option String
  condition_1_action : Option String
  condition_2 : Option String
  condition_2_action : Option String
deriving Repr

/-- The rendered form as the library reads it back: for each field name
whose `[data-field-name=...]` element exists, the current value of
`element.style.display`. -/
abbrev Dom := List (String × String)

def domLookup (dom : Dom) (name : String) : Option String :=
  (dom.find? (fun kv => kv.1 = name)).map (fun kv => kv.2)

def domSet (dom : Dom) (name : String) (display : String) : Dom :=
  dom.map (fun kv => if kv.1 = name then (kv.1, display) else kv)

/-- `fieldElement && fieldElement.style.display === 'none'`: the element
exists and is currently hidden. -/
def isHiddenInDom (dom : Dom) (name : String) : Bool :=
  match domLookup dom name with
  | some d => d = "none"
  | none => false

/-- Truthiness of an optional config string (`config.condition_1 && ...`):
present and non-empty. -/
def optStrTruthy : Option String → Bool
  | none => false
  | some s => s != ""

/-- Truthiness of an optional numeric config value
(`config.min_length && ...`): present and non-zero. -/
def optNatTruthy : Option Nat → Bool
  | none => false
  | some n => n != 0

/-- The per-field `shouldShow` computation of
`evaluateConditionalVisibility`.  `condEval c` stands for
`evaluateCondition(c, formData)` with the form values currently read from
the DOM: the source substitutes field values into the condition string and
runs it through `eval`, which has no shallow embedding, so that evaluation
is a parameter here (the source's guards guarantee it is only consulted
for present, non-empty condition strings). -/
def shouldShowField (condEval : String → Bool) (config : FieldConfig) : Bool :=
  let shown0 := !config.hidden
  let shown1 :=
    if optStrTruthy config.condition_1 && config.condition_1_action = some "show" then
      condEval (config.condition_1.getD "")
    else shown0
  if optStrTruthy config.condition_2 && config.condition_2_action = some "show" then
    shown1 && condEval (config.condition_2.getD "")
  else shown1

/-- `evaluateConditionalVisibility(allFieldConfigs)`: for every field whose
form group element exists, set `style.display` to `''` when shown and
`'none'` when not. -/
def evaluateConditionalVisibility (condEval : String → Bool)
    (allFieldConfigs : List FieldConfig) (dom : Dom) : Dom :=
  allFieldConfigs.foldl
    (fun d config =>
      match domLookup d config.field_name with
      | none => d
      | some _ =>
        domSet d config.field_name
          (if shouldShowField condEval config then "" else "none"))
    dom

/-- `formData[name]`: an absent key reads as `undefined`. -/
def jsLookup (formData : List (String × JsValue)) (name : String) : JsValue :=
  match formData.find? (fun kv => kv.1 = name) with
  | some kv => kv.2
  | none => .undefined

/-- The required-field emptiness test of `validateForm`:
`value === undefined || value === null || value === '' ||
(Array.isArray(value) && value.length === 0)`. -/
def requiredMissing : JsValue → Bool
  | .undefined => true
  | .null => true
  | .str s => s = ""
  | .arr xs => xs.isEmpty
  | _ => false

/-- `value.length` where the source compares it against
`min_length`/`max_length`: defined for strings and arrays; for other
values the JavaScript comparison against a number is false, which
`jsLength = none` reproduces below. -/
def jsLength : JsValue → Option Nat
  | .str s => some s.length
  | .arr xs => some xs.length
  | _ => none

/-- `String(v)` as used when a value reaches `emailRegex.test`.  Claims
only exercise string values; the array join coercion is elided. -/
def jsToString : JsValue → String
  | .str s => s
  | .bool b => if b then "true" else "false"
  | .num n => toString n
  | .null => "null"
  | .undefined => "undefined"
  | .arr _ => ""
  | .obj _ => "[object Object]"

/-- A character admitted by the `[^\s@]` classes of the email pattern. -/
def emailChar (c : Char) : Bool :=
  !c.isWhitespace && c ≠ '@'

/-- Split a character list at the first occurrence of `c`; `none` when `c`
does not occur. -/
def breakAt (c : Char) : List Char → Option (List Char × List Char)
  | [] => none
  | x :: xs =>
    if x = c then some ([], xs)
    else (breakAt c xs).map (fun p => (x :: p.1, p.2))

/-- `emailRegex.test`, for the pattern `^[^\s@]+@[^\s@]+\.[^\s@]+$`: a
non-empty local part, one `@` (the character classes exclude further
ones), and a domain containing a dot that is neither its first nor its
last character; no whitespace anywhere. -/
def emailTest (s : String) : Bool :=
  match breakAt '@' s.toList with
  | none => false
  | some (p1, rest) =>
    !p1.isEmpty && p1.all emailChar && rest.all emailChar &&
      ((rest.drop 1).dropLast.contains '.')

/-- The error list `validateForm` accumulates for one field config.  The
early `return` of the source (inside the `required` branch, when the
rendered element is hidden) skips every check for that field, including
the type-specific ones. -/
def fieldErrors (dom : Dom) (formData : List (String × JsValue))
    (config : FieldConfig) : List String :=
  if config.required && isHiddenInDom dom config.field_name then []
  else
    let v := jsLookup formData config.field_name
    let reqErrs :=
      if config.required && requiredMissing v then
        [config.field_displayname ++ " is required"]
      else []
    let typeErrs :=
      if jsTruthy v then
        (if config.type = some "email" && !emailTest (jsToString v) then
          [config.field_displayname ++ " must be a valid email address"]
        else []) ++
        (if optNatTruthy config.min_length &&
            (match jsLength v with
             | some l => l < config.min_length.getD 0
             | none => false) then
          [config.field_displayname ++ " must be at least " ++
            toString (config.min_length.getD 0) ++ " characters"]
        else []) ++
        (if optNatTruthy config.max_length &&
            (match jsLength v with
             | some l => config.max_length.getD 0 < l
             | none => false) then
          [config.field_displayname ++ " must not exceed " ++
            toString (config.max_length.getD 0) ++ " characters"]
        else [])
      else []
    reqErrs ++ typeErrs

/-- Push a field's errors into the accumulating `errors` object (keyed by
field name, entries created on first error, later errors appended). -/
def pushErrors : List (String × List String) → String → List String →
    List (String × List String)
  | [], name, errs => [(name, errs)]
  | (n, es) :: rest, name, errs =>
    if n = name then (n, es ++ errs) :: rest
    else (n, es) :: pushErrors rest name errs

/-- `validateForm(formData, fieldConfigs)`: returns
`{isValid, errors}`.  `isValid` is false exactly when some field
accumulated an error. -/
def validateForm (dom : Dom) (formData : List (String × JsValue))
    (fieldConfigs : List FieldConfig) : Bool × List (String × List String) :=
  fieldConfigs.foldl
    (fun acc config =>
      let errs := fieldErrors dom formData config
      (acc.1 && errs.isEmpty,
       if errs.isEmpty then acc.2 else pushErrors acc.2 config.field_name errs))
    (true, [])

/-- Errors `submitForm` can raise: its own
`Error('Form validation failed')`, or an error propagated from
`executeWorkflow`. -/
inductive SubmitError where
  | validationFailed : SubmitError
  | execError (e : ExecError) : SubmitError
deriving Repr, DecidableEq

/-- Observable invocations of the caller-supplied hooks during
`submitForm`: `onError(validation.errors)` on validation failure,
`onError(error)` from the outer catch, `onSuccess(result)`. -/
inductive HookEvent where
  | onErrorValidation (errors : List (String × List String)) : HookEvent
  | onErrorCaught (e : SubmitError) : HookEvent
  | onSuccess (r : ExecutionResult) : HookEvent
deriving Repr

/-- `submitForm(workflowId, formData, fieldConfigs, options)`.  Returns
the result-or-error, the session store afterwards, and the hook
invocations in order.  Fidelity notes:
- on invalid forms the source calls `options.onError(validation.errors)`
  when the hook is present, then throws
  `Error('Form validation failed')`; that throw lands in the function's
  own catch, which calls `options.onError(error)` again (when present)
  and unconditionally rethrows — so the error leaves `submitForm` whether
  or not a hook was supplied;
- `stringify` stands for the platform `JSON.stringify` applied to the
  form data when it is handed to `executeWorkflow` as the input payload
  (its exact output shapes only the cache key);
- hooks are modelled as non-throwing observers. -/
def submitForm (cfg : Config) (remote : Remote) (sess : Session) (dom : Dom)
    (stringify : List (String × JsValue) → String)
    (workflowId : String) (formData : List (String × JsValue))
    (fieldConfigs : List FieldConfig) (options : Options) :
    Except SubmitError ExecutionResult × Session × List HookEvent :=
  let validation := validateForm dom formData fieldConfigs
  if validation.1 = false then
    ((.error .validationFailed), sess,
      (if options.hasOnError then [HookEvent.onErrorValidation validation.2] else []) ++
      (if options.hasOnError then [HookEvent.onErrorCaught .validationFailed] else []))
  else
    match executeWorkflow cfg remote sess workflowId (stringify formData) options with
    | (.ok r, sess2, _) =>
      (.ok r, sess2,
        if options.hasOnSuccess then [HookEvent.onSuccess r] else [])
    | (.error e, sess2, _) =>
      ((.error (.execError e)), sess2,
        if options.hasOnError then [HookEvent.onErrorCaught (.execError e)] else [])

/-! ### Concrete inputs used to witness the universally quantified
theorems below -/

/-- A terminal execution whose output is still the empty object. -/
def execEmptyOut : Execution :=
  { status := some "COMPLETED"
    conductor := some { errors := some [], output := .obj [] }
    numSuccessfulTasks := some 0 }

/-- A terminal execution with a materialized (non-empty) output. -/
def execFullOut : Execution :=
  { status := some "succeeded"
    conductor := some { errors := some ["warn"], output := .obj [("a", .str "1")] }
    numSuccessfulTasks := some 2 }

/-- A resolvable execution that never reaches a terminal status. -/
def execRunning : Execution :=
  { status := some "RUNNING", conductor := none, numSuccessfulTasks := none }

/-- Status stream for C1: terminal-but-empty on the first nine polls,
terminal-and-ready from the tenth on. -/
def c1Es : Nat → Execution := fun n => if n < 9 then execEmptyOut else execFullOut

def c1Resp : Nat → PollResp := fun n => .found (c1Es n)

/-- Status stream for the immediate-success comparison run of C1. -/
def c1RespB : Nat → PollResp := fun _ => .found execFullOut

/-- Status stream for C3: always resolvable, never terminal. -/
def c3Resp : Nat → PollResp := fun _ => .found execRunning

def cfgDefault : Config := { skip_cache := false }

def optsDefault : Options :=
  { skip_cache := none, useCache := none, hasOnSuccess := false, hasOnError := false }

def optsWithOnError : Options := { optsDefault with hasOnError := true }

def sessEmpty : Session := { entries := [], putFails := false }

/-- A store whose write path throws (quota exhausted). -/
def sessFailingPut : Session := { entries := [], putFails := true }

/-- A remote endpoint that launches successfully and reports a ready
terminal execution on the first status query. -/
def remoteOk : Remote := { launch := some "E1", poll := fun _ => .found execFullOut }

/-- A remote endpoint that can serve nothing; used to witness that a
cache hit issues no remote call. -/
def remoteDead : Remote := { launch := none, poll := fun _ => .notFound }

/-- Stand-in serialization for witnesses (the `JSON.stringify` slot of
`submitForm`). -/
def stringifyStub : List (String × JsValue) → String := fun _ => "S"

/-- A visible required text field. -/
def reqField : FieldConfig :=
  { field_name := "f", field_displayname := "F", type := none, required := true,
    min_length := none, max_length := none, hidden := false,
    condition_1 := none, condition_1_action := none,
    condition_2 := none, condition_2_action := none }

/-- A non-required email field whose rendered element is hidden in the
fixtures below. -/
def emailField : FieldConfig :=
  { field_name := "e", field_displayname := "E", type := some "email",
    required := false, min_length := none, max_length := none, hidden := true,
    condition_1 := none, condition_1_action := none,
    condition_2 := none, condition_2_action := none }

/-- A `hidden=true` field with no conditions. -/
def hiddenField (name : String) : FieldConfig :=
  { field_name := name, field_displayname := name, type := none,
    required := false, min_length := none, max_length := none, hidden := true,
    condition_1 := none, condition_1_action := none,
    condition_2 := none, condition_2_action := none }

/-- The same field with `condition_1` and action "show". -/
def hiddenFieldC1 (name c1 : String) : FieldConfig :=
  { hiddenField name with condition_1 := some c1, condition_1_action := some "show" }

/-- The same field with `condition_2` and action "show" added. -/
def hiddenFieldC12 (name c1 c2 : String) : FieldConfig :=
  { hiddenFieldC1 name c1 with condition_2 := some c2, condition_2_action := some "show" }

/-- Condition evaluator for witnesses: the condition string "CT" holds,
every other one fails. -/
def condEvalStub : String → Bool := fun s => s == "CT"

end Rewst

namespace Rewst

set_option maxRecDepth 100000

/-! ### Single-iteration unfolding lemmas for the polling loop -/

theorem pollLoop_step_timeout (resp : Nat → PollResp) (fuel : Nat) (s : PollState)
    (hf : 1 ≤ fuel) (ha : ¬ s.attempts < maxAttempts) :
    pollLoop resp fuel s = (.err .pollTimeout, s) := by
  obtain ⟨f, rfl⟩ : ∃ f, fuel = f + 1 := ⟨fuel - 1, by omega⟩
  simp [pollLoop, ha]

theorem pollLoop_step_nonterminal (resp : Nat → PollResp) (fuel : Nat) (s : PollState)
    (e : Execution) (hf : 1 ≤ fuel) (ha : s.attempts < maxAttempts)
    (hq : resp s.queries = .found e) (ht : isTerminalStatus e.status = false) :
    pollLoop resp fuel s =
      pollLoop resp (fuel - 1)
        { s with attempts := s.attempts + 1, queries := s.queries + 1,
                 waits := s.waits ++ [2000] } := by
  obtain ⟨f, rfl⟩ : ∃ f, fuel = f + 1 := ⟨fuel - 1, by omega⟩
  simp [pollLoop, ha, hq, ht]

theorem pollLoop_step_emptyTerminal (resp : Nat → PollResp) (fuel : Nat) (s : PollState)
    (e : Execution) (hf : 1 ≤ fuel) (ha : s.attempts < maxAttempts)
    (hq : resp s.queries = .found e) (ht : isTerminalStatus e.status = true)
    (hem : outputEmpty (outputVal e) = true) (heo : s.eoRetries < maxEmptyOutputRetries) :
    pollLoop resp fuel s =
      pollLoop resp (fuel - 1)
        { attempts := s.attempts - 1, eoRetries := s.eoRetries + 1,
          queries := s.queries + 1, waits := s.waits ++ [2500] } := by
  obtain ⟨f, rfl⟩ : ∃ f, fuel = f + 1 := ⟨fuel - 1, by omega⟩
  simp [pollLoop, ha, hq, ht, hem, heo]

theorem pollLoop_step_ready (resp : Nat → PollResp) (fuel : Nat) (s : PollState)
    (e : Execution) (hf : 1 ≤ fuel) (ha : s.attempts < maxAttempts)
    (hq : resp s.queries = .found e) (ht : isTerminalStatus e.status = true)
    (hem : outputEmpty (outputVal e) = false) :
    pollLoop resp fuel s = (.ok (mkResult e), { s with queries := s.queries + 1 }) := by
  obtain ⟨f, rfl⟩ : ∃ f, fuel = f + 1 := ⟨fuel - 1, by omega⟩
  simp [pollLoop, ha, hq, ht, hem]

/-- A run of `k` consecutive non-terminal responses advances `attempts`
and `queries` by `k`, waiting 2000 ms each time, and changes nothing
else. -/
theorem pollLoop_nonterminal_run (resp : Nat → PollResp) (es : Nat → Execution)
    (h : ∀ n, resp n = .found (es n))
    (ht : ∀ n, isTerminalStatus (es n).status = false) :
    ∀ (k fuel : Nat) (s : PollState), s.attempts + k = maxAttempts → k < fuel →
      pollLoop resp fuel s =
        (.err .pollTimeout,
         { attempts := maxAttempts, eoRetries := s.eoRetries,
           queries := s.queries + k, waits := s.waits ++ List.replicate k 2000 }) := by
  intro k
  induction k with
  | zero =>
    intro fuel s hk hfuel
    rw [pollLoop_step_timeout resp fuel s (by omega) (by omega)]
    cases s with
    | mk a eo q w => simp at hk; simp [hk]
  | succ k ih =>
    intro fuel s hk hfuel
    rw [pollLoop_step_nonterminal resp fuel s (es s.queries) (by omega) (by omega)
          (h s.queries) (ht s.queries)]
    rw [ih (fuel - 1) _ (by show s.attempts + 1 + k = maxAttempts; omega) (by omega)]
    simp [List.replicate_succ]
    omega

/-- A run of `k` consecutive terminal-but-empty-output responses consumes
`k` units of the empty-output budget, decrements `attempts` by `k`
(floored at zero, which is what truncated subtraction is), and waits
2500 ms each time. -/
theorem pollLoop_empty_run (resp : Nat → PollResp) (es : Nat → Execution) :
    ∀ (k fuel : Nat) (s : PollState),
      (∀ i, i < k → resp (s.queries + i) = .found (es (s.queries + i)) ∧
        isTerminalStatus (es (s.queries + i)).status = true ∧
        outputVal (es (s.queries + i)) = .obj []) →
      s.eoRetries + k ≤ maxEmptyOutputRetries →
      s.attempts < maxAttempts → k ≤ fuel →
      pollLoop resp fuel s =
        pollLoop resp (fuel - k)
          { attempts := s.attempts - k, eoRetries := s.eoRetries + k,
            queries := s.queries + k, waits := s.waits ++ List.replicate k 2500 } := by
  intro k
  induction k with
  | zero =>
    intro fuel s _ _ _ _
    cases s with
    | mk a eo q w => simp
  | succ k ih =>
    intro fuel s hresp heo ha hfuel
    obtain ⟨hq0, ht0, hv0⟩ := hresp 0 (by omega)
    rw [pollLoop_step_emptyTerminal resp fuel s (es s.queries) (by omega) ha
          (by simpa using hq0) (by simpa using ht0)
          (by rw [show outputVal (es s.queries) = .obj [] by simpa using hv0]; rfl)
          (by omega)]
    rw [ih (fuel - 1) _ (fun i hi => by
          have := hresp (i + 1) (by omega)
          simpa [Nat.add_assoc, Nat.add_comm 1 i] using this)
        (by show s.eoRetries + 1 + k ≤ maxEmptyOutputRetries; omega)
        (by show s.attempts - 1 < maxAttempts; omega) (by omega)]
    simp [List.replicate_succ]
    have e1 : fuel - 1 - k = fuel - (k + 1) := by omega
    have e2 : s.attempts - 1 - k = s.attempts - (k + 1) := by omega
    have e3 : s.eoRetries + 1 + k = s.eoRetries + (k + 1) := by omega
    have e4 : s.queries + 1 + k = s.queries + (k + 1) := by omega
    rw [e1, e2, e3, e4]

/-! ### C1 -/

/-- C1.  If the status query yields a terminal status with an empty output
object (`{}`) on each of the first 9 polls and a terminal status with a
non-empty output on the 10th, the poller returns the 10th result, has
consumed exactly 9 units of the empty-output retry budget (whose size is
10), and its final `attempts` counter is the `attempts` counter of an
immediately-successful run decremented by 9 and floored at zero. -/
theorem c1_empty_output_grace (resp respB : Nat → PollResp) (es : Nat → Execution)
    (eB : Execution)
    (h1 : ∀ n, n < 9 → resp n = .found (es n))
    (hterm : ∀ n, n ≤ 9 → isTerminalStatus (es n).status = true)
    (hempty : ∀ n, n < 9 → outputVal (es n) = .obj [])
    (h9 : resp 9 = .found (es 9))
    (hready : outputEmpty (outputVal (es 9)) = false)
    (hB : respB 0 = .found eB)
    (hBt : isTerminalStatus eB.status = true)
    (hBready : outputEmpty (outputVal eB) = false) :
    waitForWorkflowCompletion resp =
      (.ok (mkResult (es 9)),
       { attempts := 0, eoRetries := 9, queries := 10, waits := List.replicate 9 2500 }) ∧
    waitForWorkflowCompletion respB =
      (.ok (mkResult eB), { attempts := 0, eoRetries := 0, queries := 1, waits := [] }) ∧
    maxEmptyOutputRetries = 10 ∧
    (waitForWorkflowCompletion resp).2.eoRetries = 9 ∧
    (waitForWorkflowCompletion resp).2.attempts =
      (waitForWorkflowCompletion respB).2.attempts - 9 := by
  have hmain : waitForWorkflowCompletion resp =
      (.ok (mkResult (es 9)),
       { attempts := 0, eoRetries := 9, queries := 10, waits := List.replicate 9 2500 }) := by
    rw [waitForWorkflowCompletion,
        pollLoop_empty_run resp es 9 pollFuel _
          (fun i hi => ⟨by simpa using h1 i (by omega),
                        by simpa using hterm i (by omega),
                        by simpa using hempty i (by omega)⟩)
          (by simp [maxEmptyOutputRetries]) (by simp [maxAttempts]) (by simp [pollFuel])]
    rw [pollLoop_step_ready _ _ _ (es 9) (by simp [pollFuel]) (by simp [maxAttempts])
          (by simpa using h9) (hterm 9 (by omega)) hready]
    simp
  have hB2 : waitForWorkflowCompletion respB =
      (.ok (mkResult eB), { attempts := 0, eoRetries := 0, queries := 1, waits := [] }) := by
    rw [waitForWorkflowCompletion,
        pollLoop_step_ready _ _ _ eB (by simp [pollFuel]) (by simp [maxAttempts])
          (by simpa using hB) hBt hBready]
  refine ⟨hmain, hB2, rfl, by simp [hmain], by simp [hmain, hB2]⟩

/-- Witness for C1 at the concrete streams `c1Resp`/`c1RespB`. -/
theorem c1_empty_output_grace_witness :
    waitForWorkflowCompletion c1Resp =
      (.ok (mkResult (c1Es 9)),
       { attempts := 0, eoRetries := 9, queries := 10, waits := List.replicate 9 2500 }) ∧
    waitForWorkflowCompletion c1RespB =
      (.ok (mkResult execFullOut),
       { attempts := 0, eoRetries := 0, queries := 1, waits := [] }) ∧
    maxEmptyOutputRetries = 10 ∧
    (waitForWorkflowCompletion c1Resp).2.eoRetries = 9 ∧
    (waitForWorkflowCompletion c1Resp).2.attempts =
      (waitForWorkflowCompletion c1RespB).2.attempts - 9 :=
  c1_empty_output_grace c1Resp c1RespB c1Es execFullOut
    (fun _ _ => rfl)
    (fun n _ => by
      show isTerminalStatus (if n < 9 then execEmptyOut else execFullOut).status = true
      split <;> rfl)
    (fun n hn => by
      show outputVal (if n < 9 then execEmptyOut else execFullOut) = JsValue.obj []
      rw [if_pos hn]
      rfl)
    rfl rfl rfl rfl rfl

/-! ### C3 -/

/-- C3.  If the status query always yields a resolvable execution whose
status is non-terminal, the poller fails with the poll-timeout error after
exactly 150 main-budget iterations: 150 queries, every wait the main
2000 ms interval (no error or empty-output retries), and no result is
returned. -/
theorem c3_poll_timeout (resp : Nat → PollResp) (es : Nat → Execution)
    (h : ∀ n, resp n = .found (es n))
    (ht : ∀ n, isTerminalStatus (es n).status = false) :
    waitForWorkflowCompletion resp =
      (.err .pollTimeout,
       { attempts := 150, eoRetries := 0, queries := 150,
         waits := List.replicate 150 2000 }) := by
  rw [waitForWorkflowCompletion,
      pollLoop_nonterminal_run resp es h ht maxAttempts pollFuel _
        (by simp) (by simp [maxAttempts, pollFuel])]
  rfl

/-- Witness for C3 at the concrete stream `c3Resp`. -/
theorem c3_poll_timeout_witness :
    waitForWorkflowCompletion c3Resp =
      (.err .pollTimeout,
       { attempts := 150, eoRetries := 0, queries := 150,
         waits := List.replicate 150 2000 }) :=
  c3_poll_timeout c3Resp (fun _ => execRunning) (fun _ => rfl) (fun _ => rfl)

/-! ### C2 -/

/-- C2 concerns a handle whose execution never becomes resolvable.  The
code retries at 500 ms for the first five attempts, as claimed; but the
`Error('Execution not found after retries')` thrown on the sixth attempt
sits inside the `try` block of the polling loop, so the loop's own
`catch` swallows it: the poller keeps querying with 1000 ms waits and the
not-found error only propagates once `attempts` reaches the main budget
of 150 — after 150 status queries, not on attempt 6.  This theorem
evaluates the embedded code on the always-absent response stream. -/
theorem c2_not_found_swallowed :
    waitForWorkflowCompletion (fun _ => .notFound) =
      (.err .executionNotFound,
       { attempts := 150, eoRetries := 0, queries := 150,
         waits := List.replicate 5 500 ++ List.replicate 144 1000 }) := by
  rfl

/-! ### C6 -/

/-- C6.  The effective cache-use flag of `executeWorkflow` is resolved by
priority: per-call `skip_cache = true` disables caching; otherwise
per-call `useCache = false` disables it; otherwise the global
`skip_cache = true` setting disables it; otherwise caching is enabled. -/
theorem c6_cache_flag_priority (sc uc : Option Bool) (hs he g : Bool) :
    (sc = some true → resolveUseCache ⟨sc, uc, hs, he⟩ ⟨g⟩ = false) ∧
    (sc ≠ some true → uc = some false → resolveUseCache ⟨sc, uc, hs, he⟩ ⟨g⟩ = false) ∧
    (sc ≠ some true → uc ≠ some false → g = true →
      resolveUseCache ⟨sc, uc, hs, he⟩ ⟨g⟩ = false) ∧
    (sc ≠ some true → uc ≠ some false → g = false →
      resolveUseCache ⟨sc, uc, hs, he⟩ ⟨g⟩ = true) := by
  refine ⟨?_, ?_, ?_, ?_⟩
  · rintro rfl; rfl
  · rintro h1 rfl; simp [resolveUseCache, h1]
  · rintro h1 h2 rfl; simp [resolveUseCache, h1, h2]
  · rintro h1 h2 rfl; simp [resolveUseCache, h1, h2]

/-- Witness for C6: all four priority levels at concrete flag values. -/
theorem c6_cache_flag_priority_witness :
    resolveUseCache ⟨some true, none, false, false⟩ ⟨false⟩ = false ∧
    resolveUseCache ⟨some false, some false, false, false⟩ ⟨false⟩ = false ∧
    resolveUseCache ⟨none, none, false, false⟩ ⟨true⟩ = false ∧
    resolveUseCache ⟨none, none, false, false⟩ ⟨false⟩ = true :=
  ⟨(c6_cache_flag_priority (some true) none false false false).1 rfl,
   (c6_cache_flag_priority (some false) (some false) false false false).2.1
     (by decide) rfl,
   (c6_cache_flag_priority none none false false true).2.2.1
     (by decide) (by decide) rfl,
   (c6_cache_flag_priority none none false false false).2.2.2
     (by decide) (by decide) rfl⟩

/-! ### C4 -/

/-- Counterexample to C4 as stated.  Caching is enabled, the launch
succeeds and the poll completes successfully, but the store's write path
throws: `executeWorkflow` then raises the storage error instead of
returning the `ExecutionResult` — the cache write in the source is not
wrapped in any try/catch, so storage errors are surfaced, not absorbed. -/
theorem c4_counterexample :
    (waitForWorkflowCompletion remoteOk.poll).1 = .ok (mkResult execFullOut) ∧
    (executeWorkflow cfgDefault remoteOk sessFailingPut "J1" "IN" optsDefault).1 =
      .error (.storageError "QuotaExceededError") := by
  exact ⟨rfl, rfl⟩

/-- C4 as the code has it: with caching enabled, a cache miss, a
successful launch and a successful poll, a throwing cache write makes
`executeWorkflow` propagate the storage error to its caller; the
execution result is not returned. -/
theorem c4_storage_error_propagates (cfg : Config) (remote : Remote) (sess : Session)
    (wid inp eid : String) (opts : Options) (r : ExecutionResult) (st : PollState)
    (hc : resolveUseCache opts cfg = true)
    (hm : sess.getItem (workflowCacheKey wid inp) = none)
    (hl : remote.launch = some eid)
    (hp : waitForWorkflowCompletion remote.poll = (.ok r, st))
    (hw : sess.putFails = true) :
    executeWorkflow cfg remote sess wid inp opts =
      (.error (.storageError "QuotaExceededError"), sess, 1 + st.queries) := by
  simp [executeWorkflow, hc, hm, hl, hp, Session.setItem, hw]

/-- Witness for C4's amended statement at concrete inputs. -/
theorem c4_storage_error_propagates_witness :
    resolveUseCache optsDefault cfgDefault = true ∧
    sessFailingPut.putFails = true ∧
    executeWorkflow cfgDefault remoteOk sessFailingPut "J1" "IN" optsDefault =
      (.error (.storageError "QuotaExceededError"), sessFailingPut, 2) :=
  ⟨rfl, rfl,
   c4_storage_error_propagates cfgDefault remoteOk sessFailingPut "J1" "IN" "E1"
     optsDefault (mkResult execFullOut)
     { attempts := 0, eoRetries := 0, queries := 1, waits := [] }
     rfl rfl rfl rfl rfl⟩

/-! ### C7 -/

/-- `find?` over a filtered list agrees with `find?` over the original
when the filter keeps everything the search predicate accepts. -/
theorem find?_filter_keep {α : Type} (p q : α → Bool) :
    ∀ l : List α, (∀ x, p x = true → q x = true) →
      (l.filter q).find? p = l.find? p := by
  intro l h
  induction l with
  | nil => rfl
  | cons x t ih =>
    cases hpx : p x with
    | true =>
      have hqx := h x hpx
      simp [List.filter_cons, hqx, List.find?, hpx]
    | false =>
      cases hqx : q x with
      | true => simp [List.filter_cons, hqx, List.find?, hpx, ih]
      | false => simp [List.filter_cons, hqx, List.find?, hpx, ih]

/-- A freshly written cache entry is read back exactly. -/
theorem getItem_cachePut_self (sess : Session) (key : String) (r : ExecutionResult) :
    (cachePut sess key r).getItem key = some r := by
  unfold cachePut Session.getItem
  have hnone : (sess.entries.filter (fun kv => kv.1 ≠ key)).find?
      (fun kv => kv.1 = key) = none := by
    apply List.find?_eq_none.mpr
    intro x hx
    have hmem := (List.mem_filter.mp hx).2
    simp only [ne_eq, decide_not] at hmem
    simpa using hmem
  simp [List.find?_append, hnone, List.find?]

/-- Filtering the store with a predicate that keeps every entry at `key`
does not change `getItem key`. -/
theorem getItem_filter (sess : Session) (q : String × ExecutionResult → Bool)
    (key : String) (h : ∀ kv : String × ExecutionResult, kv.1 = key → q kv = true) :
    Session.getItem { sess with entries := sess.entries.filter q } key =
      sess.getItem key := by
  unfold Session.getItem
  rw [find?_filter_keep _ _ _ (fun kv hkv => h kv (by simpa using hkv))]

/-- A `clearWorkflowCache` invocation that does not touch `key` leaves
`getItem key` unchanged. -/
theorem getItem_clear_untouched (sess : Session) (w i : Option String) (key : String)
    (h : clearTouches w i key = false) :
    (clearWorkflowCache sess w i).getItem key = sess.getItem key := by
  unfold clearWorkflowCache
  unfold clearTouches at h
  by_cases hw : (w.getD "") = ""
  · rw [if_pos hw]
    rw [if_pos hw] at h
    apply getItem_filter
    intro kv hkv
    simp [hkv, h]
  · rw [if_neg hw]
    rw [if_neg hw] at h
    cases i with
    | some inp =>
      have hne : key ≠ workflowCacheKey (w.getD "") inp := by simpa using h
      unfold Session.removeItem
      apply getItem_filter
      intro kv hkv
      simp [hkv]
      exact hne
    | none =>
      have h2 : jsStartsWith key ("workflow_cache_" ++ w.getD "" ++ "_") = false := h
      apply getItem_filter
      intro kv hkv
      simp [hkv, h2]

/-- C7.  A first `executeWorkflow` call with caching enabled, a cache
miss, a successful launch and poll, and a working store returns the
polled result and writes it under the fingerprint key; a second call with
the same `(workflowId, serialized input)` pair and caching enabled
returns that stored value with zero remote calls, against any remote
endpoint whatsoever; and any `clearWorkflowCache` invocation that does
not touch the key preserves the entry. -/
theorem c7_cache_round_trip (cfg : Config) (remote : Remote) (sess : Session)
    (wid inp eid : String) (opts : Options) (r : ExecutionResult) (st : PollState)
    (hc : resolveUseCache opts cfg = true)
    (hm : sess.getItem (workflowCacheKey wid inp) = none)
    (hl : remote.launch = some eid)
    (hp : waitForWorkflowCompletion remote.poll = (.ok r, st))
    (hw : sess.putFails = false) :
    executeWorkflow cfg remote sess wid inp opts =
      (.ok r, cachePut sess (workflowCacheKey wid inp) r, 1 + st.queries) ∧
    (cachePut sess (workflowCacheKey wid inp) r).getItem (workflowCacheKey wid inp) =
      some r ∧
    (∀ remote2, executeWorkflow cfg remote2
      (cachePut sess (workflowCacheKey wid inp) r) wid inp opts =
      (.ok r, cachePut sess (workflowCacheKey wid inp) r, 0)) ∧
    (∀ w i, clearTouches w i (workflowCacheKey wid inp) = false →
      (clearWorkflowCache (cachePut sess (workflowCacheKey wid inp) r) w i).getItem
        (workflowCacheKey wid inp) = some r) := by
  have hget := getItem_cachePut_self sess (workflowCacheKey wid inp) r
  refine ⟨?_, hget, ?_, ?_⟩
  · simp [executeWorkflow, hc, hm, hl, hp, Session.setItem, hw]
  · intro remote2
    simp [executeWorkflow, hc, hget]
  · intro w i hti
    rw [getItem_clear_untouched _ _ _ _ hti, hget]

/-- Witness for C7 at concrete inputs, including the zero-remote-call
replay against a dead endpoint and preservation under an invalidation of
a different workflow's entries. -/
theorem c7_cache_round_trip_witness :
    resolveUseCache optsDefault cfgDefault = true ∧
    sessEmpty.getItem (workflowCacheKey "J1" "IN") = none ∧
    sessEmpty.putFails = false ∧
    executeWorkflow cfgDefault remoteOk sessEmpty "J1" "IN" optsDefault =
      (.ok (mkResult execFullOut),
       cachePut sessEmpty (workflowCacheKey "J1" "IN") (mkResult execFullOut), 2) ∧
    executeWorkflow cfgDefault remoteDead
      (cachePut sessEmpty (workflowCacheKey "J1" "IN") (mkResult execFullOut))
      "J1" "IN" optsDefault =
      (.ok (mkResult execFullOut),
       cachePut sessEmpty (workflowCacheKey "J1" "IN") (mkResult execFullOut), 0) ∧
    clearTouches (some "OTHER") none (workflowCacheKey "J1" "IN") = false ∧
    (clearWorkflowCache
       (cachePut sessEmpty (workflowCacheKey "J1" "IN") (mkResult execFullOut))
       (some "OTHER") none).getItem (workflowCacheKey "J1" "IN") =
      some (mkResult execFullOut) := by
  have h := c7_cache_round_trip cfgDefault remoteOk sessEmpty "J1" "IN" "E1"
    optsDefault (mkResult execFullOut)
    { attempts := 0, eoRetries := 0, queries := 1, waits := [] } rfl rfl rfl rfl rfl
  exact ⟨rfl, rfl, rfl, h.1, h.2.2.1 remoteDead, rfl, h.2.2.2 (some "OTHER") none rfl⟩

/-! ### C5 -/

/-- Counterexample to C5 as stated.  The caller supplies an `onError`
hook and validation fails, yet `submitForm` still throws: the
`Error('Form validation failed')` raised after invoking the hook lands in
the function's own catch, which re-invokes the hook and unconditionally
rethrows, so the failure leaves the submission path even with a hook
present. -/
theorem c5_counterexample :
    optsWithOnError.hasOnError = true ∧
    (submitForm cfgDefault remoteOk sessEmpty [] stringifyStub "W" [] [reqField]
       optsWithOnError).1 = .error .validationFailed :=
  ⟨rfl, rfl⟩

/-- C5 as the code has it: on an invalid form, `submitForm` raises
`Error('Form validation failed')` whether or not an `onError` hook was
supplied; when the hook is present it is invoked twice before the throw
escapes — once with the structured validation errors and once, from the
outer catch, with the thrown error itself — and when it is absent no hook
runs. -/
theorem c5_validation_error_thrown (cfg : Config) (remote : Remote) (sess : Session)
    (dom : Dom) (stringify : List (String × JsValue) → String) (wid : String)
    (fd : List (String × JsValue)) (fieldConfigs : List FieldConfig) (opts : Options)
    (hv : (validateForm dom fd fieldConfigs).1 = false) :
    (submitForm cfg remote sess dom stringify wid fd fieldConfigs opts).1 =
      .error .validationFailed ∧
    (opts.hasOnError = true →
      (submitForm cfg remote sess dom stringify wid fd fieldConfigs opts).2.2 =
        [HookEvent.onErrorValidation (validateForm dom fd fieldConfigs).2,
         HookEvent.onErrorCaught .validationFailed]) ∧
    (opts.hasOnError = false →
      (submitForm cfg remote sess dom stringify wid fd fieldConfigs opts).2.2 = []) := by
  refine ⟨?_, ?_, ?_⟩
  · simp [submitForm, hv]
  · intro hh
    simp [submitForm, hv, hh]
  · intro hh
    simp [submitForm, hv, hh]

/-- Witness for C5's amended statement at a concrete invalid form with
the hook present. -/
theorem c5_validation_error_thrown_witness :
    (validateForm [] [] [reqField]).1 = false ∧
    (submitForm cfgDefault remoteOk sessEmpty [] stringifyStub "W" [] [reqField]
       optsWithOnError).1 = .error .validationFailed ∧
    (submitForm cfgDefault remoteOk sessEmpty [] stringifyStub "W" [] [reqField]
       optsWithOnError).2.2 =
      [HookEvent.onErrorValidation [("f", ["F is required"])],
       HookEvent.onErrorCaught .validationFailed] := by
  have h := c5_validation_error_thrown cfgDefault remoteOk sessEmpty [] stringifyStub
    "W" [] [reqField] optsWithOnError rfl
  exact ⟨rfl, h.1, (h.2.1 rfl).trans rfl⟩

/-! ### C8 -/

/-- C8.  For a field with `hidden = true`: with no conditions it is not
shown; with a `condition_1` evaluating true under action "show" it is
shown (the condition result overrides the hidden default); additionally
giving it a false-evaluating `condition_2` under action "show" makes it
not shown again (`condition_2` is conjoined). -/
theorem c8_visibility_precedence (condEval : String → Bool) (name d0 c1s c2s : String)
    (h1 : c1s ≠ "") (h2 : c2s ≠ "")
    (he1 : condEval c1s = true) (he2 : condEval c2s = false) :
    evaluateConditionalVisibility condEval [hiddenField name] [(name, d0)] =
      [(name, "none")] ∧
    evaluateConditionalVisibility condEval [hiddenFieldC1 name c1s] [(name, d0)] =
      [(name, "")] ∧
    evaluateConditionalVisibility condEval [hiddenFieldC12 name c1s c2s] [(name, d0)] =
      [(name, "none")] := by
  have h1b : (c1s != "") = true := by simpa using h1
  have h2b : (c2s != "") = true := by simpa using h2
  refine ⟨?_, ?_, ?_⟩ <;>
    simp [evaluateConditionalVisibility, domLookup, domSet, shouldShowField,
      hiddenField, hiddenFieldC1, hiddenFieldC12, optStrTruthy, h1b, h2b,
      he1, he2, List.find?]

/-- Witness for C8 with a concrete evaluator and condition strings. -/
theorem c8_visibility_precedence_witness :
    condEvalStub "CT" = true ∧ condEvalStub "CF" = false ∧
    evaluateConditionalVisibility condEvalStub [hiddenField "x"] [("x", "")] =
      [("x", "none")] ∧
    evaluateConditionalVisibility condEvalStub [hiddenFieldC1 "x" "CT"] [("x", "")] =
      [("x", "")] ∧
    evaluateConditionalVisibility condEvalStub [hiddenFieldC12 "x" "CT" "CF"]
      [("x", "")] = [("x", "none")] := by
  have h := c8_visibility_precedence condEvalStub "x" "" "CT" "CF"
    (by decide) (by decide) rfl rfl
  exact ⟨rfl, rfl, h.1, h.2.1, h.2.2⟩

/-! ### C9 -/

/-- C9.  A required field whose rendered element is currently hidden
(`style.display === 'none'`) produces no validation error whatever its
value, and removing it from the validated configuration list changes
nothing: it can never make `isValid` false. -/
theorem c9_hidden_required_exempt (dom : Dom) (fd : List (String × JsValue))
    (cs1 cs2 : List FieldConfig) (config : FieldConfig)
    (hr : config.required = true) (hh : isHiddenInDom dom config.field_name = true) :
    fieldErrors dom fd config = [] ∧
    validateForm dom fd (cs1 ++ config :: cs2) = validateForm dom fd (cs1 ++ cs2) := by
  have fe : fieldErrors dom fd config = [] := by simp [fieldErrors, hr, hh]
  refine ⟨fe, ?_⟩
  unfold validateForm
  rw [List.foldl_append, List.foldl_append, List.foldl_cons]
  congr 1
  simp [fe]

/-- Witness for C9: a hidden required field with no value, alone in the
configuration list. -/
theorem c9_hidden_required_exempt_witness :
    reqField.required = true ∧
    isHiddenInDom [("f", "none")] reqField.field_name = true ∧
    fieldErrors [("f", "none")] [] reqField = [] ∧
    validateForm [("f", "none")] [] ([] ++ reqField :: []) =
      validateForm [("f", "none")] [] ([] ++ []) := by
  have h := c9_hidden_required_exempt [("f", "none")] [] [] [] reqField rfl rfl
  exact ⟨rfl, rfl, h.1, h.2⟩

/-! ### C10 -/

/-- C10.  The hidden-field exemption lives inside the `required` branch
of `validateForm` and its early `return` skips the whole field: a hidden
required field is exempt from every check, including email format and
length; a non-required field's checks are entirely independent of the
rendered visibility, so a hidden non-required email field with a present
malformed value still gets the email-format error. -/
theorem c10_hidden_exemption_scope (dom dom2 : Dom) (fd : List (String × JsValue))
    (config : FieldConfig) :
    (config.required = true → isHiddenInDom dom config.field_name = true →
      fieldErrors dom fd config = []) ∧
    (config.required = false → fieldErrors dom fd config = fieldErrors dom2 fd config) ∧
    fieldErrors [("e", "none")] [("e", .str "not-an-email")] emailField =
      ["E must be a valid email address"] := by
  refine ⟨?_, ?_, ?_⟩
  · intro hr hh
    simp [fieldErrors, hr, hh]
  · intro hr
    simp [fieldErrors, hr]
  · rfl

/-- Witness for C10: a hidden required email-capable field with a
malformed present value yields no error, while visibility does not change
the errors of a non-required field. -/
theorem c10_hidden_exemption_scope_witness :
    reqField.required = true ∧
    isHiddenInDom [("f", "none")] reqField.field_name = true ∧
    fieldErrors [("f", "none")] [("f", .str "not-an-email")] reqField = [] ∧
    emailField.required = false ∧
    fieldErrors [("e", "none")] [("e", .str "ab")] emailField =
      fieldErrors [("e", "OTHER")] [("e", .str "ab")] emailField := by
  have hA := c10_hidden_exemption_scope [("f", "none")] [] [("f", .str "not-an-email")]
    reqField
  have hB := c10_hidden_exemption_scope [("e", "none")] [("e", "OTHER")]
    [("e", .str "ab")] emailField
  exact ⟨rfl, rfl, hA.1 rfl rfl, rfl, hB.2.1 rfl⟩

end Rewst
